import Mathlib

/-!
Verification of the git-backup repository mirroring tool.

The development shallowly embeds the two source files:
  * `repository.go` — the sync engine (`CloneInto`, `fetchAllRefs`);
  * `cmd/git-backup/main.go` — the run orchestrator (`main`) and the
    Slack notifier (`SendSlackNotification`, duplicated in `slack.go`).

The underlying version-control engine (go-git) is an external collaborator:
its calls are represented by scripted results (`EngineScript`), and — for
the stateful idempotence property — by a small world model whose clone,
pull and fetch semantics are modelled from the spec.
-/

namespace GitBackup

/-- The go-git error values the source discriminates on, plus `other` for
every remaining error (network, auth, OS, ...).  A Go `error` value that may
be `nil` is embedded as `Option GitError` with `none` for `nil`. -/
inductive GitError where
  | errRepositoryAlreadyExists
  | errEmptyRemoteRepository
  | noErrAlreadyUpToDate
  | other (msg : String)
deriving DecidableEq, Repr

/-- The engine results consumed by one execution of `fetchAllRefs`:
the branch fetch, the tag fetch, and the fallback tag fetch
(`repository.go` lines 66, 85, 97). -/
structure FetchScript where
  branchRes : Option GitError
  tagRes : Option GitError
  fallbackRes : Option GitError
deriving DecidableEq, Repr

/-- The individual fetch operations `fetchAllRefs` can perform, in the
order they appear in the source: forced fetch of all branch refs, forced
fetch of all tags, and the explicit-refspec fallback tag fetch. -/
inductive FetchOp where
  | branches
  | tags
  | tagsFallback
deriving DecidableEq, Repr

/-- Trace of one `fetchAllRefs` execution: the fetch operations performed,
in order. -/
structure FetchTrace where
  ops : List FetchOp
deriving DecidableEq, Repr

/-- `repository.go` lines 60–108, `fetchAllRefs`.  The branch fetch runs
first; its error is only logged (lines 77–79) and is then overwritten by
the tag fetch's result.  If the tag fetch fails with anything other than
`NoErrAlreadyUpToDate`, the fallback tag fetch runs and its result is
returned; otherwise the tag fetch's result is returned. -/
def fetchAllRefs (fs : FetchScript) : Option GitError × FetchTrace :=
  let err := fs.tagRes
  if err ≠ none ∧ err ≠ some .noErrAlreadyUpToDate then
    (fs.fallbackRes, ⟨[.branches, .tags, .tagsFallback]⟩)
  else
    (err, ⟨[.branches, .tags]⟩)

/-- The engine results one `CloneInto` invocation can consume, one slot per
call site in `repository.go`: `git.PlainClone` (line 124), `git.PlainOpen`
(line 135), the bareness inspection `isBare` (line 138, a config-read error
paired with the bareness flag), `Worktree` (line 139), `Pull` (line 142),
the `fetchAllRefs` run in the already-exists branch (line 149), and the
`fetchAllRefs` run in the terminal switch (line 168). -/
structure EngineScript where
  cloneRes : Option GitError
  openRes : Option GitError
  isBareRes : Option GitError × Bool
  worktreeRes : Option GitError
  pullRes : Option GitError
  bareFetch : FetchScript
  finalFetch : FetchScript
deriving DecidableEq, Repr

/-- The return point of `CloneInto`: the empty-repository early return
(line 158), the first switch's default (line 160), the terminal switch's
already-up-to-date return (line 175), and the terminal switch's default
(line 177). -/
inductive RetPoint where
  | emptyRepo
  | firstSwitchDefault
  | finalAlreadyUpToDate
  | finalDefault
deriving DecidableEq, Repr

/-- Trace of one `CloneInto` invocation: whether the `PlainClone` call
succeeded (a fresh clone was made), how many times the `fetchAllRefs`
sequence executed, the result of the terminal-switch `fetchAllRefs` run
(when it executed), and the return point taken. -/
structure CloneTrace where
  freshClone : Bool
  fetchSeqs : Nat
  finalFetch : Option (Option GitError)
  retPoint : RetPoint
deriving DecidableEq, Repr

/-- `repository.go` lines 154–178: the two `switch` statements closing
`CloneInto`.  Go switch semantics: the `default` clause runs only when no
case matches, regardless of its textual position; `fallthrough` in the
`NoErrAlreadyUpToDate` case transfers to the textually next case body
(`case err == nil`), so both cases run `fetchAllRefs` and then the final
switch maps `NoErrAlreadyUpToDate` to `nil` and returns anything else.
`finishRefresh` is the second switch (lines 172–178), applied to the result
`r` of the terminal `fetchAllRefs` run. -/
def finishRefresh (fresh : Bool) (seqs : Nat) (r : Option GitError) :
    Option GitError × CloneTrace :=
  if r = some .noErrAlreadyUpToDate then
    (none, ⟨fresh, seqs + 1, some r, .finalAlreadyUpToDate⟩)
  else
    (r, ⟨fresh, seqs + 1, some r, .finalDefault⟩)

def firstSwitch (err : Option GitError) (fresh : Bool) (seqs : Nat)
    (es : EngineScript) : Option GitError × CloneTrace :=
  if err = some .errEmptyRemoteRepository then
    (none, ⟨fresh, seqs, none, .emptyRepo⟩)
  else if err = some .noErrAlreadyUpToDate ∨ err = none then
    finishRefresh fresh seqs (fetchAllRefs es.finalFetch).1
  else
    (err, ⟨fresh, seqs, none, .firstSwitchDefault⟩)

/-- `repository.go` lines 110–178, `CloneInto`.  A mirror clone is
attempted; on `ErrRepositoryAlreadyExists` the local repository is opened
and either pulled (non-bare, bareness inspection succeeded) or refreshed
with `fetchAllRefs` (bare, or bareness inspection failed — Go condition
`bErr == nil && !isBare` on line 138); the resulting error value then flows
into the closing switches (`firstSwitch`). -/
def cloneInto (es : EngineScript) : Option GitError × CloneTrace :=
  if es.cloneRes = some .errRepositoryAlreadyExists then
    if es.openRes = none then
      match es.isBareRes with
      | (none, false) =>
        match es.worktreeRes with
        | some wErr => firstSwitch (some wErr) false 0 es
        | none => firstSwitch es.pullRes false 0 es
      | _ => firstSwitch (fetchAllRefs es.bareFetch).1 false 1 es
    else
      firstSwitch es.openRes false 0 es
  else
    firstSwitch es.cloneRes es.cloneRes.isNone 0 es

/-- The spec's SyncOutcome kinds (§3). -/
inductive Outcome where
  | cloned
  | updated
  | alreadyCurrent
  | skippedEmpty
  | failed (e : GitError)
deriving DecidableEq, Repr

/-- Modelled from the spec: the code returns only `nil`/error, so the
spec's outcome labels (§3, §4.2) are mapped onto the code's return points:
the empty-repository return is `skipped-empty`; a successful call that
performed a fresh mirror clone is `cloned` (§4.2 step 1); otherwise the
terminal classification of §4.2 step 4 applies (`already-current` for a
final already-up-to-date, `updated` for a nil final error); any returned
error is `failed`. -/
def outcomeOf : Option GitError × CloneTrace → Outcome
  | (res, tr) =>
    match tr.retPoint with
    | .emptyRepo => .skippedEmpty
    | .firstSwitchDefault =>
      match res with
      | some e => .failed e
      | none => .updated
    | .finalAlreadyUpToDate => if tr.freshClone then .cloned else .alreadyCurrent
    | .finalDefault =>
      match res with
      | none => if tr.freshClone then .cloned else .updated
      | some e => .failed e

/-! ### World model for the external version-control engine

`CloneInto` delegates clone/pull/fetch to go-git, an external collaborator.
For the stateful idempotence property the engine's behaviour is modelled
from the spec (§1, §4.2, glossary): a remote with a content version
(`0` = zero commits, i.e. empty), and an optional local repository holding
the version it last synchronised and its bareness. -/

/-- Modelled from the spec: the state a `CloneInto` call runs against — the
remote's content version (`0` means the remote has zero commits) and the
local repository at the target path, if any, as (synced version, bareness). -/
structure World where
  remoteV : Nat
  localRepo : Option (Nat × Bool)
deriving DecidableEq, Repr

/-- Modelled from the spec: a fetch (or pull) reports already-up-to-date
when the local repository already holds the remote's content, updates it
successfully otherwise, and fails if no local repository exists. -/
def fetchResOf (w : World) : Option GitError :=
  match w.localRepo with
  | none => some (.other "repository does not exist")
  | some (v, _) => if v = w.remoteV then some .noErrAlreadyUpToDate else none

/-- Modelled from the spec: the world after a successful fetch or pull —
the local repository now holds the remote's content. -/
def syncLocal (w : World) : World :=
  match w.localRepo with
  | none => w
  | some (_, b) => ⟨w.remoteV, some (w.remoteV, b)⟩

/-- Modelled from the spec: the results the engine hands one
`fetchAllRefs` execution, threading the world through the branch fetch. -/
def fetchScriptOf (w : World) : FetchScript :=
  ⟨fetchResOf w, fetchResOf (syncLocal w), fetchResOf (syncLocal w)⟩

/-- Modelled from the spec: `git.PlainClone` fails with
`ErrRepositoryAlreadyExists` when a local repository exists, with
`ErrEmptyRemoteRepository` when the remote has zero commits, and succeeds
otherwise. -/
def cloneResOf (w : World) : Option GitError :=
  match w.localRepo with
  | some _ => some .errRepositoryAlreadyExists
  | none => if w.remoteV = 0 then some .errEmptyRemoteRepository else none

/-- Modelled from the spec: the world after the clone attempt — a
successful mirror clone creates a local repository at the remote's
content, with the bareness requested by the caller. -/
def afterCloneAttempt (w : World) (bare : Bool) : World :=
  match w.localRepo with
  | some _ => w
  | none => if w.remoteV = 0 then w else ⟨w.remoteV, some (w.remoteV, bare)⟩

/-- The bareness the config inspection reports for the local repository. -/
def localBareOf (w : World) : Bool :=
  match w.localRepo with
  | some (_, b) => b
  | none => true

/-- Modelled from the spec: the engine script a world presents to one
`CloneInto` invocation.  Opening an existing repository and obtaining its
worktree succeed; the already-exists fetch sequence runs against the
post-clone-attempt world, and by the terminal refresh the local repository
is synchronised (the clone, the pull or the first fetch sequence brought
it up to date). -/
def scriptOfWorld (w : World) (bare : Bool) : EngineScript :=
  let w1 := afterCloneAttempt w bare
  ⟨cloneResOf w, none, (none, localBareOf w1), none,
    fetchResOf w1, fetchScriptOf w1, fetchScriptOf (syncLocal w1)⟩

/-- Modelled from the spec: the world after one `CloneInto` invocation —
unchanged when the remote is empty and nothing local existed, otherwise
the local repository ends synchronised with the remote. -/
def worldAfterCloneInto (w : World) (bare : Bool) : World :=
  match w.localRepo with
  | none => if w.remoteV = 0 then w else syncLocal (afterCloneAttempt w bare)
  | some _ => syncLocal w

/-! ### The run orchestrator (`cmd/git-backup/main.go`, `main`)

The orchestrator's external inputs — per-source connectivity/listing
results and per-repository directory-creation and `CloneInto` results —
are the fields of `SourceRun`/`RepoRun`; `main`'s loop is transcribed over
them.  Time-derived fields of `BackupResult` (duration, timestamps) are
not modelled. -/

/-- `main.go` lines 57–66, the counters of `BackupResult` (duration and
timestamps omitted). -/
structure BackupResult where
  RepoCount : Nat
  ErrorCount : Nat
  FailedRepos : List String
  Success : Bool
deriving DecidableEq, Repr

/-- The `Error()` string of an embedded error value. -/
def errString : GitError → String
  | .errRepositoryAlreadyExists => "repository already exists"
  | .errEmptyRemoteRepository => "remote repository is empty"
  | .noErrAlreadyUpToDate => "already up-to-date"
  | .other msg => msg

/-- One repository as the orchestrator sees it: its full name, the result
of `os.MkdirAll` for its target directory, and the result of
`repo.CloneInto`. -/
structure RepoRun where
  fullName : String
  mkdirErr : Option String
  cloneErr : Option GitError
deriving DecidableEq, Repr

/-- One source as the orchestrator sees it: its name, the results of
`source.Test()` and `source.ListRepositories()`, and the listed
repositories. -/
structure SourceRun where
  name : String
  testErr : Option String
  listErr : Option String
  repos : List RepoRun
deriving DecidableEq, Repr

/-- The orchestrator's mutable accumulators (`main.go` lines 196–198):
`repoCount`, `errors`, `failedRepos`. -/
structure RunState where
  repoCount : Nat
  errors : Nat
  failedRepos : List String
deriving DecidableEq, Repr

/-- `main.go` lines 238–287, the body of the repository loop.  A
directory-creation failure records the failure and either exits with code
100 (fail-fast) or `continue`s — skipping the count increment.  A clone
failure records the failure and either exits with code 100 (fail-fast) or
falls through to `repoCount++`, which runs for every repository whose
directory was created, failed clone or not. -/
def processRepo (failAtEnd : Bool) (st : RunState) (r : RepoRun) :
    Except (RunState × Nat) RunState :=
  match r.mkdirErr with
  | some _ =>
    let st' : RunState :=
      ⟨st.repoCount, st.errors + 1,
        st.failedRepos ++ [r.fullName ++ " (directory creation failed)"]⟩
    if failAtEnd then .ok st' else .error (st', 100)
  | none =>
    match r.cloneErr with
    | some e =>
      let st' : RunState :=
        ⟨st.repoCount, st.errors + 1,
          st.failedRepos ++ [r.fullName ++ " (" ++ errString e ++ ")"]⟩
      if failAtEnd then .ok ⟨st'.repoCount + 1, st'.errors, st'.failedRepos⟩
      else .error (st', 100)
    | none => .ok ⟨st.repoCount + 1, st.errors, st.failedRepos⟩

/-- The repository loop over one source's listing. -/
def runRepos (failAtEnd : Bool) (st : RunState) :
    List RepoRun → Except (RunState × Nat) RunState
  | [] => .ok st
  | r :: rs =>
    match processRepo failAtEnd st r with
    | .error x => .error x
    | .ok st' => runRepos failAtEnd st' rs

/-- `main.go` lines 200–288, the source loop.  A `Test()` failure exits
with code 110 and a summary with `RepoCount 0`, `ErrorCount 1` and a
single failure entry; a `ListRepositories()` failure exits likewise with
code 100; a fail-fast repository failure exits with code 100 and the
accumulated state. -/
def runSources (failAtEnd : Bool) (st : RunState) :
    List SourceRun → Except (Nat × BackupResult) RunState
  | [] => .ok st
  | s :: ss =>
    match s.testErr with
    | some e =>
      .error (110, ⟨0, 1, ["Connection failed to " ++ s.name ++ ": " ++ e], false⟩)
    | none =>
      match s.listErr with
      | some e =>
        .error (100, ⟨0, 1, ["Communication error with " ++ s.name ++ ": " ++ e], false⟩)
      | none =>
        match runRepos failAtEnd st s.repos with
        | .error (st', code) =>
          .error (code, ⟨st'.repoCount, st'.errors, st'.failedRepos, false⟩)
        | .ok st' => runSources failAtEnd st' ss

/-- `main.go` lines 187–322, `main` after configuration load: exit code
111 when no sources are configured (before any summary is built);
otherwise the source loop runs, the summary is handed to the notifier
when a webhook is configured, and the final exit code is 100 when any
errors accumulated and 0 otherwise. -/
def run (failAtEnd webhookSet : Bool) (sources : List SourceRun) :
    Nat × Option BackupResult :=
  if sources.isEmpty then (111, none)
  else
    match runSources failAtEnd ⟨0, 0, []⟩ sources with
    | .error (code, res) => (code, if webhookSet then some res else none)
    | .ok st =>
      ((if st.errors > 0 then 100 else 0),
        if webhookSet then
          some ⟨st.repoCount, st.errors, st.failedRepos, st.errors == 0⟩
        else none)

/-! ### The notifier (`slack.go` / `main.go`, `SendSlackNotification`) -/

/-- Outcome of the `http.Post` call: a transport failure (no response) or
a completed response with an HTTP status code. -/
inductive HttpPostResult where
  | failed (msg : String)
  | responded (status : Nat)
deriving DecidableEq, Repr

/-- `slack.go` lines 50–73, `SendSlackNotification`'s delivery decision
(`main.go` lines 69–92 is a verbatim duplicate).  Marshalling of the
message structure cannot fail and is modelled as success.  A completed
response is a delivery failure exactly when its status differs from
`http.StatusOK` (200). -/
def sendSlackNotification (webhookURL : String) (post : HttpPostResult) :
    Option String :=
  if webhookURL = "" then some "Slack webhook URL is not configured"
  else
    match post with
    | .failed m => some ("failed to send Slack notification: " ++ m)
    | .responded st =>
      if st ≠ 200 then some ("Slack API returned status code: " ++ toString st)
      else none

/-! ### Concrete scripts and derived accounting used by the properties -/

/-- An existing bare local repository whose fetches all succeed. -/
def existingBareScript : EngineScript :=
  ⟨some .errRepositoryAlreadyExists, none, (none, true), none, none,
    ⟨none, none, none⟩, ⟨none, none, none⟩⟩

/-- An existing non-bare local repository whose pull reports
already-up-to-date. -/
def pullPathScript : EngineScript :=
  ⟨some .errRepositoryAlreadyExists, none, (none, false), none,
    some .noErrAlreadyUpToDate, ⟨none, none, none⟩, ⟨none, none, none⟩⟩

/-- The spec's three-repository scenario: an empty remote, a repository
whose clone fails with a network error, and a repository that syncs
normally (the first and third clone results are computed by `cloneInto`
over the corresponding worlds). -/
def scenarioRepos : List RepoRun :=
  [⟨"alpha", none, (cloneInto (scriptOfWorld ⟨0, none⟩ true)).1⟩,
   ⟨"beta", none, some (.other "network error")⟩,
   ⟨"gamma", none, (cloneInto (scriptOfWorld ⟨1, none⟩ true)).1⟩]

/-- One source with a repository that fails its sync followed by one that
succeeds. -/
def twoRepoSource : List SourceRun :=
  [⟨"s", none, none, [⟨"a", none, some (.other "x")⟩, ⟨"b", none, none⟩]⟩]

/-- Repositories whose directory creation succeeds: these are exactly the
ones the loop counts into `repoCount`. -/
def attemptedCount (rs : List RepoRun) : Nat :=
  (rs.filter fun r => r.mkdirErr.isNone).length

/-- Repositories that fail directory creation or their sync. -/
def failedCount (rs : List RepoRun) : Nat :=
  (rs.filter fun r => r.mkdirErr.isSome || r.cloneErr.isSome).length

/-- The failure descriptions the loop appends, in listing order. -/
def failureEntries : List RepoRun → List String
  | [] => []
  | r :: rs =>
    (match r.mkdirErr with
     | some _ => [r.fullName ++ " (directory creation failed)"]
     | none =>
       match r.cloneErr with
       | some e => [r.fullName ++ " (" ++ errString e ++ ")"]
       | none => []) ++ failureEntries rs

/-- `attemptedCount` summed over all sources. -/
def totalAttempted : List SourceRun → Nat
  | [] => 0
  | s :: ss => attemptedCount s.repos + totalAttempted ss

/-- `failedCount` summed over all sources. -/
def totalFailed : List SourceRun → Nat
  | [] => 0
  | s :: ss => failedCount s.repos + totalFailed ss

/-- `failureEntries` concatenated over all sources. -/
def allFailureEntries : List SourceRun → List String
  | [] => []
  | s :: ss => failureEntries s.repos ++ allFailureEntries ss

/-- The accumulator invariant: the error counter equals the number of
recorded failure descriptions. -/
def invState (st : RunState) : Prop := st.errors = st.failedRepos.length

/-- The invariant carried through the repository loop: it holds of the
state inside both a normal and an early-exit result. -/
def invRepoResult : Except (RunState × Nat) RunState → Prop
  | .ok st => invState st
  | .error (st, _) => invState st

/-- The invariant carried through the source loop: a normal result keeps
the state invariant, an early exit carries a summary whose error count
matches its failure list. -/
def invResult : Except (Nat × BackupResult) RunState → Prop
  | .ok st => invState st
  | .error (_, res) => res.ErrorCount = res.FailedRepos.length

/-! ### Properties of the sync engine -/

/-- Every branch of `cloneInto` ends in the closing switches. -/
lemma cloneInto_eq_firstSwitch (es : EngineScript) :
    ∃ e f s, cloneInto es = firstSwitch e f s es := by
  unfold cloneInto
  split
  · split
    · split
      · split
        · exact ⟨_, _, _, rfl⟩
        · exact ⟨_, _, _, rfl⟩
      · exact ⟨_, _, _, rfl⟩
    · exact ⟨_, _, _, rfl⟩
  · exact ⟨_, _, _, rfl⟩

/-- When the closing switches record a terminal-refresh result, the whole
switch is the terminal classification applied to that result. -/
lemma firstSwitch_finalFetch (e : Option GitError) (f : Bool) (s : Nat)
    (es : EngineScript) (r : Option GitError)
    (h : (firstSwitch e f s es).2.finalFetch = some r) :
    r = (fetchAllRefs es.finalFetch).1 ∧
    firstSwitch e f s es = finishRefresh f s r := by
  unfold firstSwitch at h ⊢
  split_ifs at h ⊢ with h1 h2
  have hr : r = (fetchAllRefs es.finalFetch).1 := by
    unfold finishRefresh at h
    split at h <;> simp_all
  exact ⟨hr, by rw [hr]⟩

/-- C4: for every `CloneInto` invocation that reaches the terminal
ref-refresh, the refresh's result `r` alone determines the operation's
result: an already-up-to-date `r` yields success (outcome
`already-current` for an invocation that did not fresh-clone), a nil `r`
yields success (outcome `updated` for an invocation that did not
fresh-clone), and any other non-nil `r` is returned as the operation's
error, carrying the original cause (outcome `failed`). -/
theorem cloneInto_final_fetch_determines (es : EngineScript)
    (r : Option GitError) (h : (cloneInto es).2.finalFetch = some r) :
    (cloneInto es).1 = (if r = some .noErrAlreadyUpToDate then none else r) ∧
    (r = some .noErrAlreadyUpToDate →
      (cloneInto es).1 = none ∧
      ((cloneInto es).2.freshClone = false →
        outcomeOf (cloneInto es) = .alreadyCurrent)) ∧
    (r = none →
      (cloneInto es).1 = none ∧
      ((cloneInto es).2.freshClone = false →
        outcomeOf (cloneInto es) = .updated)) ∧
    (∀ ge, r = some ge → ge ≠ .noErrAlreadyUpToDate →
      (cloneInto es).1 = some ge ∧ outcomeOf (cloneInto es) = .failed ge) := by
  obtain ⟨e, f, s, heq⟩ := cloneInto_eq_firstSwitch es
  rw [heq] at h ⊢
  obtain ⟨hr, hfin⟩ := firstSwitch_finalFetch e f s es r h
  rw [hfin]
  unfold finishRefresh
  by_cases hup : r = some .noErrAlreadyUpToDate
  · rw [if_pos hup]
    refine ⟨by simp [hup], fun _ => ⟨rfl, fun hf => ?_⟩, fun h0 => ?_,
      fun ge hge hne => ?_⟩
    · simp only [outcomeOf] at hf ⊢
      simp_all
    · simp [h0] at hup
    · rw [hup] at hge
      exact absurd (Option.some_injective _ hge).symm hne
  · rw [if_neg hup]
    refine ⟨by simp [hup], fun hc => absurd hc hup, fun h0 => ?_,
      fun ge hge hne => ?_⟩
    · subst h0
      refine ⟨rfl, fun hf => ?_⟩
      simp only [outcomeOf] at hf ⊢
      simp_all
    · subst hge
      exact ⟨rfl, by simp [outcomeOf]⟩

/-- Witness for C4: a fresh clone over a one-commit remote reaches the
terminal refresh with an already-up-to-date result and succeeds. -/
theorem final_fetch_determines_witness :
    (cloneInto (scriptOfWorld ⟨1, none⟩ true)).2.finalFetch =
      some (some .noErrAlreadyUpToDate) ∧
    (cloneInto (scriptOfWorld ⟨1, none⟩ true)).1 = none :=
  ⟨by decide,
    ((cloneInto_final_fetch_determines (scriptOfWorld ⟨1, none⟩ true)
      (some .noErrAlreadyUpToDate) (by decide)).2.1 rfl).1⟩

/-- C3: a `CloneInto` invocation whose clone attempt fails with the
empty-repository signal returns success (outcome `skipped-empty`), never
an error, and the orchestrator's repository step consequently records no
failure for it and counts it as processed. -/
theorem empty_remote_clone_is_success (es : EngineScript)
    (h : es.cloneRes = some .errEmptyRemoteRepository) :
    (cloneInto es).1 = none ∧
    outcomeOf (cloneInto es) = .skippedEmpty ∧
    ∀ (f : Bool) (st : RunState) (nm : String),
      processRepo f st ⟨nm, none, (cloneInto es).1⟩ =
        .ok ⟨st.repoCount + 1, st.errors, st.failedRepos⟩ := by
  have hc : cloneInto es = (none, ⟨false, 0, none, .emptyRepo⟩) := by
    simp [cloneInto, h, firstSwitch, Option.isNone]
  rw [hc]
  exact ⟨rfl, rfl, fun f st nm => rfl⟩

/-- Witness for C3: the world of an empty remote with no local mirror. -/
theorem empty_remote_witness :
    (scriptOfWorld ⟨0, none⟩ true).cloneRes = some .errEmptyRemoteRepository ∧
    (cloneInto (scriptOfWorld ⟨0, none⟩ true)).1 = none ∧
    outcomeOf (cloneInto (scriptOfWorld ⟨0, none⟩ true)) = .skippedEmpty ∧
    processRepo true ⟨0, 0, []⟩
        ⟨"alpha", none, (cloneInto (scriptOfWorld ⟨0, none⟩ true)).1⟩ =
      .ok ⟨1, 0, []⟩ := by
  have h := empty_remote_clone_is_success (scriptOfWorld ⟨0, none⟩ true) (by decide)
  exact ⟨by decide, h.1, h.2.1, h.2.2 true ⟨0, 0, []⟩ "alpha"⟩

/-- One `fetchAllRefs` execution performs the branch fetch, then the tag
fetch, then at most the fallback tag fetch, in that order. -/
lemma fetchAllRefs_ops (fs : FetchScript) :
    (fetchAllRefs fs).2.ops = [.branches, .tags] ∨
    (fetchAllRefs fs).2.ops = [.branches, .tags, .tagsFallback] := by
  by_cases hc : fs.tagRes ≠ none ∧ fs.tagRes ≠ some .noErrAlreadyUpToDate
  · right
    simp only [fetchAllRefs]
    rw [if_pos hc]
  · left
    simp only [fetchAllRefs]
    rw [if_neg hc]

/-- C6: the value `fetchAllRefs` returns does not depend on the branch
fetch's result — a branch-fetch failure is only logged — and the tag
fetch is performed regardless. -/
theorem branch_fetch_failure_isolated (b b' t fb : Option GitError) :
    (fetchAllRefs ⟨b, t, fb⟩).1 = (fetchAllRefs ⟨b', t, fb⟩).1 ∧
    FetchOp.tags ∈ (fetchAllRefs ⟨b, t, fb⟩).2.ops := by
  refine ⟨rfl, ?_⟩
  rcases fetchAllRefs_ops ⟨b, t, fb⟩ with h | h <;> rw [h] <;> simp

/-- The closing switches run the terminal refresh exactly when the error
flowing into them is nil or already-up-to-date. -/
lemma firstSwitch_fetchSeqs (e : Option GitError) (f : Bool) (s : Nat)
    (es : EngineScript) :
    (firstSwitch e f s es).2.fetchSeqs =
      (if e = some .noErrAlreadyUpToDate ∨ e = none then s + 1 else s) := by
  unfold firstSwitch finishRefresh
  by_cases h1 : e = some .errEmptyRemoteRepository
  · rw [if_pos h1]
    simp [h1]
  · rw [if_neg h1]
    by_cases h2 : e = some .noErrAlreadyUpToDate ∨ e = none
    · rw [if_pos h2, if_pos h2]
      split <;> rfl
    · rw [if_neg h2, if_neg h2]

/-- Counterexample to C5: for an existing bare repository whose fetches
succeed, `CloneInto` executes the branch-then-tag fetch sequence twice —
once in the open-existing branch and once in the terminal switch — not at
most once. -/
theorem bare_repo_double_fetch_sequence :
    (cloneInto existingBareScript).2.fetchSeqs = 2 ∧
    ¬ (cloneInto existingBareScript).2.fetchSeqs ≤ 1 := by decide

/-- C5 as amended: each `fetchAllRefs` execution is two ordered fetches
(branches then tags) plus at most one fallback tag fetch; the sequence
executes once per invocation on the fresh-clone path and on the non-bare
pull path (when the pull's result lets the run reach the refresh), but an
existing bare repository executes it twice whenever the first sequence
returns nil or already-up-to-date. -/
theorem fetch_sequence_counts :
    (∀ fs : FetchScript,
      (fetchAllRefs fs).2.ops = [.branches, .tags] ∨
      (fetchAllRefs fs).2.ops = [.branches, .tags, .tagsFallback]) ∧
    (∀ es : EngineScript, es.cloneRes = none →
      (cloneInto es).2.fetchSeqs = 1) ∧
    (∀ es : EngineScript, es.cloneRes = some .errRepositoryAlreadyExists →
      es.openRes = none → es.isBareRes = (none, false) → es.worktreeRes = none →
      (cloneInto es).2.fetchSeqs =
        (if es.pullRes = some .noErrAlreadyUpToDate ∨ es.pullRes = none
         then 1 else 0)) ∧
    (∀ es : EngineScript, es.cloneRes = some .errRepositoryAlreadyExists →
      es.openRes = none → (es.isBareRes.1 ≠ none ∨ es.isBareRes.2 = true) →
      (cloneInto es).2.fetchSeqs =
        (if (fetchAllRefs es.bareFetch).1 = some .noErrAlreadyUpToDate ∨
            (fetchAllRefs es.bareFetch).1 = none
         then 2 else 1)) := by
  refine ⟨fetchAllRefs_ops, ?_, ?_, ?_⟩
  · intro es hc
    simp [cloneInto, hc, firstSwitch_fetchSeqs]
  · intro es hc ho hb hw
    simp [cloneInto, hc, ho, hb, hw, firstSwitch_fetchSeqs]
  · intro es hc ho hb
    obtain ⟨cr, oRes, ib, wt, pr, bf, ff⟩ := es
    obtain ⟨e1, b1⟩ := ib
    simp only [EngineScript.cloneRes] at hc
    simp only [EngineScript.openRes] at ho
    simp only [EngineScript.isBareRes] at hb
    subst hc
    subst ho
    rcases e1 with _ | e1
    · have hb1 : b1 = true := by
        rcases hb with hb | hb
        · simp at hb
        · exact hb
      subst hb1
      simp [cloneInto, firstSwitch_fetchSeqs]
    · simp [cloneInto, firstSwitch_fetchSeqs]

/-- Witness for the amended C5 at concrete scripts. -/
theorem fetch_sequence_counts_witness :
    ((fetchAllRefs ⟨none, none, none⟩).2.ops = [.branches, .tags] ∨
      (fetchAllRefs ⟨none, none, none⟩).2.ops =
        [.branches, .tags, .tagsFallback]) ∧
    (cloneInto (scriptOfWorld ⟨1, none⟩ true)).2.fetchSeqs = 1 ∧
    (cloneInto pullPathScript).2.fetchSeqs =
      (if pullPathScript.pullRes = some .noErrAlreadyUpToDate ∨
          pullPathScript.pullRes = none then 1 else 0) ∧
    (cloneInto existingBareScript).2.fetchSeqs =
      (if (fetchAllRefs existingBareScript.bareFetch).1 =
            some .noErrAlreadyUpToDate ∨
          (fetchAllRefs existingBareScript.bareFetch).1 = none
       then 2 else 1) :=
  ⟨fetch_sequence_counts.1 ⟨none, none, none⟩,
   fetch_sequence_counts.2.1 (scriptOfWorld ⟨1, none⟩ true) (by decide),
   fetch_sequence_counts.2.2.1 pullPathScript rfl rfl rfl rfl,
   fetch_sequence_counts.2.2.2 existingBareScript rfl rfl (Or.inr rfl)⟩

/-- C8: against the world model of the engine, running `CloneInto` twice
on the same non-empty remote and local path with no remote changes in
between succeeds both times — the first call performs a fresh mirror
clone (outcome `cloned`) and the second call ends already-current. -/
theorem materialize_twice_idempotent (v : Nat) (b : Bool) (hv : 0 < v) :
    (cloneInto (scriptOfWorld ⟨v, none⟩ b)).1 = none ∧
    outcomeOf (cloneInto (scriptOfWorld ⟨v, none⟩ b)) = .cloned ∧
    (cloneInto (scriptOfWorld (worldAfterCloneInto ⟨v, none⟩ b) b)).1 = none ∧
    outcomeOf (cloneInto (scriptOfWorld (worldAfterCloneInto ⟨v, none⟩ b) b)) =
      .alreadyCurrent := by
  have hv' : v ≠ 0 := Nat.pos_iff_ne_zero.mp hv
  cases b <;>
    simp [scriptOfWorld, cloneResOf, afterCloneAttempt, fetchResOf, syncLocal,
      fetchScriptOf, localBareOf, worldAfterCloneInto, cloneInto, firstSwitch,
      finishRefresh, fetchAllRefs, outcomeOf, hv', Option.isNone]

/-- Witness for C8: a one-commit remote, non-bare local mirror. -/
theorem materialize_twice_idempotent_witness :
    0 < 1 ∧
    ((cloneInto (scriptOfWorld ⟨1, none⟩ false)).1 = none ∧
      outcomeOf (cloneInto (scriptOfWorld ⟨1, none⟩ false)) = .cloned ∧
      (cloneInto
        (scriptOfWorld (worldAfterCloneInto ⟨1, none⟩ false) false)).1 = none ∧
      outcomeOf (cloneInto
          (scriptOfWorld (worldAfterCloneInto ⟨1, none⟩ false) false)) =
        .alreadyCurrent) :=
  ⟨by decide, materialize_twice_idempotent 1 false (by decide)⟩

/-! ### Properties of the run orchestrator and the notifier -/

/-- Counterexample to C1: in the fail-at-end run over three repositories —
one empty remote, one clone failing with a network error, one normal —
the final summary's `RepoCount` is 3, not 2: the loop increments the
counter for the failed repository as well. `ErrorCount` is 1 and
`FailedRepos` has exactly the failed repository's entry. -/
theorem three_repo_scenario_counterexample :
    run true true [⟨"src", none, none, scenarioRepos⟩] =
      (100, some ⟨3, 1, ["beta (network error)"], false⟩) ∧
    (∀ r : BackupResult,
      (run true true [⟨"src", none, none, scenarioRepos⟩]).2 = some r →
        r.RepoCount ≠ 2) := by
  refine ⟨rfl, fun r h => ?_⟩
  have h2 : (run true true [⟨"src", none, none, scenarioRepos⟩]).2 =
      some (⟨3, 1, ["beta (network error)"], false⟩ : BackupResult) := rfl
  rw [h2] at h
  rw [← Option.some.inj h]
  decide

/-- C1 as amended: in a fail-at-end run whose single source lists an empty
repository, a repository whose clone fails with a network error, and one
that syncs normally, the final summary has `RepoCount = 3` (every
repository whose directory was created is counted, failed or not),
`ErrorCount = 1`, and `FailedRepos` holds exactly one entry naming the
failed repository, and the process exits with code 100. -/
theorem three_repo_scenario_amended (sname n1 n2 n3 msg : String)
    (b1 b3 : Bool) :
    run true true [⟨sname, none, none,
      [⟨n1, none, (cloneInto (scriptOfWorld ⟨0, none⟩ b1)).1⟩,
       ⟨n2, none, some (.other msg)⟩,
       ⟨n3, none, (cloneInto (scriptOfWorld ⟨1, none⟩ b3)).1⟩]⟩] =
      (100, some ⟨3, 1, [n2 ++ " (" ++ msg ++ ")"], false⟩) := rfl

/-- Counterexample to C2: a listing failure (a source-level failure) exits
with code 100, the same code used when repositories fail to sync — the
two classes are not distinguishable by exit code. -/
theorem listing_and_sync_share_exit_code :
    (run false true [⟨"src", none, some "boom", []⟩]).1 = 100 ∧
    (run false true
      [⟨"src", none, none, [⟨"r", none, some (.other "x")⟩]⟩]).1 = 100 ∧
    (run true true
      [⟨"src", none, none, [⟨"r", none, some (.other "x")⟩]⟩]).1 = 100 := by
  decide

/-- C2 as amended: the exit codes are 0 on full success, 111 when no
sources are configured, 110 on a connectivity failure, and 100 both for a
listing failure and for repository sync failures — success, no-sources
and connectivity are pairwise distinct and distinct from 100, but listing
failures share code 100 with sync failures. -/
theorem exit_code_values (f w : Bool) (sname e rname msg : String) :
    (run f w []).1 = 111 ∧
    (run f w [⟨sname, some e, none, []⟩]).1 = 110 ∧
    (run f w [⟨sname, none, some e, []⟩]).1 = 100 ∧
    (run true w [⟨sname, none, none,
      [⟨rname, none, some (.other msg)⟩]⟩]).1 = 100 ∧
    (run false w [⟨sname, none, none,
      [⟨rname, none, some (.other msg)⟩]⟩]).1 = 100 ∧
    (run f w [⟨sname, none, none, [⟨rname, none, none⟩]⟩]).1 = 0 :=
  ⟨rfl, rfl, rfl, rfl, rfl, rfl⟩

/-- Under fail-at-end the repository loop never exits early and its final
state adds the per-repository counts to the incoming state. -/
lemma runRepos_failAtEnd (rs : List RepoRun) (st : RunState) :
    runRepos true st rs =
      .ok ⟨st.repoCount + attemptedCount rs, st.errors + failedCount rs,
        st.failedRepos ++ failureEntries rs⟩ := by
  induction rs generalizing st with
  | nil => simp [runRepos, attemptedCount, failedCount, failureEntries]
  | cons r rs ih =>
    rcases r with ⟨nm, mk, cl⟩
    cases mk with
    | some m =>
      simp [runRepos, processRepo, ih, attemptedCount, failedCount,
        failureEntries, List.filter_cons, List.append_assoc]
      omega
    | none =>
      cases cl with
      | some e =>
        simp [runRepos, processRepo, ih, attemptedCount, failedCount,
          failureEntries, List.filter_cons, List.append_assoc]
        omega
      | none =>
        simp [runRepos, processRepo, ih, attemptedCount, failedCount,
          failureEntries, List.filter_cons]
        omega

/-- Under fail-at-end, with every source passing connectivity and listing,
the source loop completes normally and accumulates all counts. -/
lemma runSources_failAtEnd (srcs : List SourceRun) (st : RunState)
    (h : ∀ s ∈ srcs, s.testErr = none ∧ s.listErr = none) :
    runSources true st srcs =
      .ok ⟨st.repoCount + totalAttempted srcs, st.errors + totalFailed srcs,
        st.failedRepos ++ allFailureEntries srcs⟩ := by
  induction srcs generalizing st with
  | nil => simp [runSources, totalAttempted, totalFailed, allFailureEntries]
  | cons s ss ih =>
    obtain ⟨ht, hl⟩ := h s (List.mem_cons_self s ss)
    have hss : ∀ x ∈ ss, x.testErr = none ∧ x.listErr = none :=
      fun x hx => h x (List.mem_cons_of_mem s hx)
    simp only [runSources, ht, hl, runRepos_failAtEnd, ih _ hss]
    simp [totalAttempted, totalFailed, allFailureEntries, Nat.add_assoc,
      List.append_assoc]

/-- C7 as amended: with fail-at-end, a failing repository never stops the
run — the loop always completes — and at the end `ErrorCount` equals the
number of repositories that failed (directory creation or sync) while
`RepoCount` equals the number of repositories whose directory creation
succeeded: sync failures still count as attempted, but repositories whose
directory creation failed are skipped and not counted. -/
theorem fail_at_end_processes_all (w : Bool) (srcs : List SourceRun)
    (h : ∀ s ∈ srcs, s.testErr = none ∧ s.listErr = none) :
    runSources true ⟨0, 0, []⟩ srcs =
      .ok ⟨totalAttempted srcs, totalFailed srcs, allFailureEntries srcs⟩ ∧
    (srcs ≠ [] →
      run true w srcs =
        ((if totalFailed srcs > 0 then 100 else 0),
          if w then
            some ⟨totalAttempted srcs, totalFailed srcs, allFailureEntries srcs,
              totalFailed srcs == 0⟩
          else none)) := by
  have hok : runSources true ⟨0, 0, []⟩ srcs =
      .ok ⟨totalAttempted srcs, totalFailed srcs, allFailureEntries srcs⟩ := by
    rw [runSources_failAtEnd srcs ⟨0, 0, []⟩ h]
    simp
  refine ⟨hok, fun hne => ?_⟩
  rw [run, if_neg (by simpa using hne), hok]

/-- Counterexample to C7: a fail-at-end run over two listed repositories
where the first fails directory creation ends with `ErrorCount = 1` but
`RepoCount = 1`, not the 2 repositories listed — the mkdir-failed
repository is skipped by `continue` without being counted. -/
theorem mkdir_failure_not_counted :
    run true true [⟨"src", none, none,
      [⟨"r", some "permission denied", none⟩, ⟨"s", none, none⟩]⟩] =
      (100, some ⟨1, 1, ["r (directory creation failed)"], false⟩) ∧
    (∀ r : BackupResult,
      (run true true [⟨"src", none, none,
        [⟨"r", some "permission denied", none⟩, ⟨"s", none, none⟩]⟩]).2 =
          some r → r.RepoCount ≠ 2) := by
  refine ⟨rfl, fun r h => ?_⟩
  have h2 : (run true true [⟨"src", none, none,
      [⟨"r", some "permission denied", none⟩, ⟨"s", none, none⟩]⟩]).2 =
      some (⟨1, 1, ["r (directory creation failed)"], false⟩ : BackupResult) :=
    rfl
  rw [h2] at h
  rw [← Option.some.inj h]
  decide

/-- Witness for the amended C7: one source, a failing repository followed
by a succeeding one. -/
theorem fail_at_end_processes_all_witness :
    runSources true ⟨0, 0, []⟩ twoRepoSource =
      .ok ⟨totalAttempted twoRepoSource, totalFailed twoRepoSource,
        allFailureEntries twoRepoSource⟩ ∧
    run true true twoRepoSource =
      ((if totalFailed twoRepoSource > 0 then 100 else 0),
        if true then
          some ⟨totalAttempted twoRepoSource, totalFailed twoRepoSource,
            allFailureEntries twoRepoSource, totalFailed twoRepoSource == 0⟩
        else none) :=
  ⟨(fail_at_end_processes_all true twoRepoSource (by decide)).1,
    (fail_at_end_processes_all true twoRepoSource (by decide)).2 (by decide)⟩

/-- Each repository step pairs every error-counter increment with exactly
one appended failure description. -/
lemma processRepo_inv (f : Bool) (st : RunState) (r : RepoRun)
    (h : invState st) : invRepoResult (processRepo f st r) := by
  rcases r with ⟨nm, mk, cl⟩
  cases mk <;> cases cl <;> cases f <;>
    simp [processRepo, invRepoResult, invState, h] <;>
      simp [invState, List.length_append] at h ⊢ <;> omega

/-- The repository loop preserves the accumulator invariant. -/
lemma runRepos_inv (f : Bool) (rs : List RepoRun) :
    ∀ st : RunState, invState st → invRepoResult (runRepos f st rs) := by
  induction rs with
  | nil => intro st h; simpa [runRepos, invRepoResult] using h
  | cons r rs ih =>
    intro st h
    have hp := processRepo_inv f st r h
    cases hres : processRepo f st r with
    | error x =>
      rw [hres] at hp
      simp only [runRepos, hres]
      exact hp
    | ok st' =>
      rw [hres] at hp
      simp only [runRepos, hres]
      exact ih st' hp

/-- The source loop preserves the invariant, and every early-exit summary
it builds satisfies it. -/
lemma runSources_inv (f : Bool) (srcs : List SourceRun) :
    ∀ st : RunState, invState st → invResult (runSources f st srcs) := by
  induction srcs with
  | nil => intro st h; simpa [runSources, invResult] using h
  | cons s ss ih =>
    intro st h
    cases ht : s.testErr with
    | some e => simp [runSources, ht, invResult]
    | none =>
      cases hl : s.listErr with
      | some e => simp [runSources, ht, hl, invResult]
      | none =>
        have hp := runRepos_inv f s.repos st h
        cases hres : runRepos f st s.repos with
        | error x =>
          rcases x with ⟨st', c⟩
          rw [hres] at hp
          simp only [runSources, ht, hl, hres]
          simpa [invResult, invRepoResult, invState] using hp
        | ok st' =>
          rw [hres] at hp
          simp only [runSources, ht, hl, hres]
          exact ih st' hp

/-- C9: every summary the run hands to the notifier — at a fatal early
exit or at normal completion — has `ErrorCount` equal to the length of
its `FailedRepos` list. -/
theorem run_summary_error_count (f w : Bool) (srcs : List SourceRun)
    (c : Nat) (r : BackupResult) (h : run f w srcs = (c, some r)) :
    r.ErrorCount = r.FailedRepos.length := by
  by_cases hs : srcs.isEmpty
  · rw [run, if_pos hs] at h
    simp at h
  · rw [run, if_neg hs] at h
    have hinv := runSources_inv f srcs ⟨0, 0, []⟩ (by simp [invState])
    cases hres : runSources f ⟨0, 0, []⟩ srcs with
    | error x =>
      rcases x with ⟨code, res⟩
      rw [hres] at h hinv
      cases w with
      | false => simp at h
      | true =>
        simp only [if_pos rfl] at h
        have : some res = some r := congrArg Prod.snd h
        rw [← Option.some.inj this]
        simpa [invResult] using hinv
    | ok st =>
      rw [hres] at h hinv
      cases w with
      | false => simp at h
      | true =>
        have : some (⟨st.repoCount, st.errors, st.failedRepos,
            st.errors == 0⟩ : BackupResult) = some r := congrArg Prod.snd h
        rw [← Option.some.inj this]
        simpa [invResult, invState] using hinv

/-- Witness for C9: the summary built at a connectivity failure. -/
theorem run_summary_error_count_witness :
    (⟨0, 1, ["Connection failed to s: x"], false⟩ : BackupResult).ErrorCount =
      (⟨0, 1, ["Connection failed to s: x"],
        false⟩ : BackupResult).FailedRepos.length :=
  run_summary_error_count false true [⟨"s", some "x", none, []⟩] 110
    ⟨0, 1, ["Connection failed to s: x"], false⟩ rfl

/-- Counterexample to C10: a 204 response is a success (2xx) status, yet
`SendSlackNotification` treats it as a delivery failure, because the code
compares the status against exactly 200. -/
theorem status_204_treated_as_failure :
    sendSlackNotification "https://hooks.example/T0/B0/XX" (.responded 204) ≠
      none ∧
    200 ≤ 204 ∧ 204 < 300 := by
  refine ⟨?_, by decide, by decide⟩
  decide

/-- C10 as amended: with a non-empty webhook URL and a completed POST,
`SendSlackNotification` reports successful delivery exactly when the
response status is 200; every other status — including other 2xx
statuses — is a delivery failure. -/
theorem slack_delivery_error_iff_not_200 (url : String) (st : Nat)
    (h : url ≠ "") :
    sendSlackNotification url (.responded st) = none ↔ st = 200 := by
  unfold sendSlackNotification
  rw [if_neg h]
  by_cases hst : st = 200
  · simp [hst]
  · simp [hst]

/-- Witness for the amended C10: a 200 response on a configured URL. -/
theorem slack_delivery_error_iff_not_200_witness :
    ("https://hooks.example/T0/B0/XX" : String) ≠ "" ∧
    (sendSlackNotification "https://hooks.example/T0/B0/XX" (.responded 200) =
        none ↔ 200 = 200) :=
  ⟨by decide,
    slack_delivery_error_iff_not_200 "https://hooks.example/T0/B0/XX" 200
      (by decide)⟩

end GitBackup
